import Mathlib

/-!
Verification of the SVO frame-handler lifecycle harness
(`app/src/main/cpp/svo/frame_handler_base.cpp`).

The controller state machine, quality gate and structure-optimizer
selection are embedded as pure Lean functions.  Side effects on the
external `Map` object (`emptyTrash`, `reset`) are made observable in two
ways: the map contents are carried in the state, and every operation also
returns the list of `Map` calls it performed, in order.
-/

namespace SVO

/-- Modelled from the spec: the `Stage` enum from the header
(`frame_handler_base.h` is not in `src/`):
`Paused | FirstFrame | DefaultFrame | Relocalizing`. -/
inductive Stage
  | paused
  | firstFrame
  | defaultFrame
  | relocalizing
deriving DecidableEq, Repr

/-- Modelled from the spec: the `TrackingQuality` enum from the header:
`Good | Insufficient`. -/
inductive TrackingQuality
  | good
  | insufficient
deriving DecidableEq, Repr

/-- Modelled from the spec: the `UpdateResult` enum from the header:
`Normal | Keyframe | Failure` (`RESULT_NO_KEYFRAME`, `RESULT_IS_KEYFRAME`,
`RESULT_FAILURE`). -/
inductive UpdateResult
  | noKeyframe
  | isKeyframe
  | failure
deriving DecidableEq, Repr

/-- Modelled from the spec: the external `Map` owns all live Points, a
deferred-deletion queue (trash), and a candidate-point collection.
Contents are abstracted as lists of point identifiers. -/
structure MapState where
  points : List Nat
  candidates : List Nat
  trash : List Nat
deriving DecidableEq, Repr

/-- Modelled from the spec: `Map::reset()` drops all Points and
candidates (a full reset, including pending deferred deletions). -/
def MapState.reset (_ : MapState) : MapState :=
  { points := [], candidates := [], trash := [] }

/-- Modelled from the spec: `Map::emptyTrash()` idempotently drains the
deferred-deletion queue. -/
def MapState.emptyTrash (m : MapState) : MapState :=
  { m with trash := [] }

/-- Observable calls made on the external `Map` object. -/
inductive MapOp
  | emptyTrash
  | reset
deriving DecidableEq, Repr

/-- Controller state of `FrameHandlerBase`: `stage_`, `set_reset_`,
`set_start_`, `num_obs_last_`, `tracking_quality_`, and the owned map. -/
structure FrameHandler where
  stage : Stage
  setReset : Bool
  setStart : Bool
  numObsLast : Nat
  trackingQuality : TrackingQuality
  map : MapState
deriving DecidableEq, Repr

/-- The constructor state: `STAGE_PAUSED`, both flags clear,
`num_obs_last_ = 0`, `TRACKING_INSUFFICIENT`. -/
def initialHandler : FrameHandler :=
  { stage := .paused
    setReset := false
    setStart := false
    numObsLast := 0
    trackingQuality := .insufficient
    map := { points := [], candidates := [], trash := [] } }

/-- `FrameHandlerBase::resetCommon()` (source lines 151-160): resets the
map, sets `stage_ = STAGE_PAUSED`, clears both request flags, sets
`tracking_quality_ = TRACKING_INSUFFICIENT` and `num_obs_last_ = 0`.
The returned trace records the `map_.reset()` call. -/
def resetCommon (s : FrameHandler) : FrameHandler × List MapOp :=
  ({ s with
      map := s.map.reset
      stage := .paused
      setReset := false
      setStart := false
      trackingQuality := .insufficient
      numObsLast := 0 },
   [MapOp.reset])

/-- Modelled from the spec: `resetAll()` is a virtual method whose
implementation is not in `src/`; per the spec it performs the full reset
described by `resetCommon` (delegate to the Map full reset, stage to
Paused, clear both flags, quality Insufficient, observation count 0). -/
def resetAll (s : FrameHandler) : FrameHandler × List MapOp :=
  resetCommon s

/-- `FrameHandlerBase::startFrameProcessingCommon` (source lines 87-109):
if `set_start_` is set, `resetAll()` then `stage_ = STAGE_FIRST_FRAME`;
if then `stage_ == STAGE_PAUSED`, return `false` with no further action;
otherwise `map_.emptyTrash()` and return `true`.  The `timestamp`
argument only feeds diagnostics and is omitted. -/
def startFrameProcessingCommon (s : FrameHandler) :
    Bool × FrameHandler × List MapOp :=
  let (s1, tr1) :=
    if s.setStart then
      let (sr, trr) := resetAll s
      ({ sr with stage := .firstFrame }, trr)
    else (s, [])
  if s1.stage = .paused then (false, s1, tr1)
  else (true, { s1 with map := s1.map.emptyTrash }, tr1 ++ [MapOp.emptyTrash])

set_option linter.unusedVariables false in
/-- `FrameHandlerBase::finishFrameProcessingCommon` (source lines
114-149): record `num_obs_last_ = num_observations`; on
`RESULT_FAILURE` in stage DefaultFrame or Relocalizing go to
Relocalizing with quality Insufficient; on any other `RESULT_FAILURE`
do `resetAll()` then `set_start_ = true`; finally, if `set_reset_` is
still set, `resetAll()`.  Returns 0. (`update_id` is unused by the
source body and kept for signature fidelity.) -/
def finishFrameProcessingCommon (updateId : Nat) (dropout : UpdateResult)
    (numObservations : Nat) (s : FrameHandler) :
    Int × FrameHandler × List MapOp :=
  let s0 := { s with numObsLast := numObservations }
  let (s1, tr1) :=
    if dropout = .failure ∧
        (s0.stage = .defaultFrame ∨ s0.stage = .relocalizing) then
      ({ s0 with
          stage := .relocalizing
          trackingQuality := .insufficient }, [])
    else if dropout = .failure then
      let (sr, trr) := resetAll s0
      ({ sr with setStart := true }, trr)
    else (s0, [])
  let (s2, tr2) := if s1.setReset then resetAll s1 else (s1, [])
  (0, s2, tr1 ++ tr2)

/-- Modelled from the spec: `Config` policy thresholds
(`qualityMinFts`, `maxFts`, `qualityMaxFtsDrop`), read-only values fixed
before processing; the accessors are not in `src/` so the values are
carried as an explicit parameter. In the C++ source `quality_min_fts`
and `max_fts` are `size_t` and `quality_max_drop_fts` is `int`. -/
structure Config where
  qualityMinFts : Nat
  maxFts : Nat
  qualityMaxFtsDrop : Int
deriving DecidableEq, Repr

/-- The value of a 32-bit twos-complement `int` holding the low 32 bits
of an integer: reduce mod `2^32` and shift the upper half down by
`2^32`.  This is what a C++ narrowing conversion to `int` computes. -/
def int32ofInt (i : Int) : Int :=
  let r := i % (4294967296 : Int)
  if r < (2147483648 : Int) then r else r - (4294967296 : Int)

/-- `FrameHandlerBase::setTrackingQuality` (source lines 165-179): start
from `TRACKING_GOOD`; degrade to `TRACKING_INSUFFICIENT` if the
observation count is below `qualityMinFts`; independently compute
`feature_drop = static_cast<int>(min(num_obs_last_, maxFts)) -
num_observations` and degrade if it exceeds `qualityMaxFtsDrop`.  The
C++ arithmetic wraps: the `size_t` minimum is narrowed to `int`
(mod `2^32`), that `int` is converted back to `size_t` by the usual
arithmetic conversions so the subtraction wraps mod `2^64`, and the
assignment to the `int` variable `feature_drop` narrows mod `2^32`
again — modelled step for step below (64-bit `size_t`, 32-bit `int`). -/
def setTrackingQuality (cfg : Config) (numObservations : Nat)
    (s : FrameHandler) : FrameHandler :=
  let q1 := TrackingQuality.good
  let q2 := if numObservations < cfg.qualityMinFts then
      TrackingQuality.insufficient
    else q1
  let castMin : Int :=
    int32ofInt ((min s.numObsLast cfg.maxFts : Nat) : Int)
  let diff64 : Int :=
    (castMin - (numObservations : Int)) % (18446744073709551616 : Int)
  let featureDrop : Int := int32ofInt diff64
  let q3 := if featureDrop > cfg.qualityMaxFtsDrop then
      TrackingQuality.insufficient
    else q2
  { s with trackingQuality := q3 }

/-- Modelled from the spec: `requestStart()` sets the start flag
(declared in the header, not in `src/`). -/
def requestStart (s : FrameHandler) : FrameHandler :=
  { s with setStart := true }

/-- Modelled from the spec: `requestReset()` sets the reset flag
(declared in the header, not in `src/`). -/
def requestReset (s : FrameHandler) : FrameHandler :=
  { s with setReset := true }

/-- One externally invokable controller operation, for stating the
stage-transition closure over call sequences. -/
inductive ControllerOp
  | startFrame
  | finishFrame (updateId : Nat) (result : UpdateResult)
      (numObservations : Nat)
  | doResetAll
  | reqReset
  | reqStart
  | setQuality (cfg : Config) (numObservations : Nat)

/-- The state reached after one controller operation (return values and
map traces discarded). -/
def applyOp : ControllerOp → FrameHandler → FrameHandler
  | .startFrame, s => (startFrameProcessingCommon s).2.1
  | .finishFrame u r n, s => (finishFrameProcessingCommon u r n s).2.1
  | .doResetAll, s => (resetAll s).1
  | .reqReset, s => requestReset s
  | .reqStart, s => requestStart s
  | .setQuality cfg n, s => setTrackingQuality cfg n s

/-- The between-call stage moves permitted by the claimed transition
closure: no change, Paused to FirstFrame, soft-failure moves into
Relocalizing from FirstFrame, DefaultFrame or Relocalizing, and any
stage to Paused. -/
def claimedStageMove (pre post : Stage) : Prop :=
  pre = post ∨
  (pre = .paused ∧ post = .firstFrame) ∨
  ((pre = .firstFrame ∨ pre = .defaultFrame ∨ pre = .relocalizing) ∧
    post = .relocalizing) ∨
  post = .paused

instance (a b : Stage) : Decidable (claimedStageMove a b) := by
  unfold claimedStageMove
  infer_instance

/-- The amended closure: additionally, any stage may move to FirstFrame
when a start request is pending at the call. -/
def amendedStageMove (s : FrameHandler) (post : Stage) : Prop :=
  claimedStageMove s.stage post ∨ (post = .firstFrame ∧ s.setStart = true)

instance (s : FrameHandler) (b : Stage) : Decidable (amendedStageMove s b) := by
  unfold amendedStageMove
  infer_instance

/-- Modelled from the spec: a map `Point` carries an identifier, the
`last_structure_optim_` stamp (id of the last frame it was refined for)
and, as the observable effect of the external numeric refinement, a
count of `optimize` invocations. -/
structure Point where
  id : Nat
  lastStructureOptim : Nat
  nOptimCalls : Nat
deriving DecidableEq, Repr

/-- Modelled from the spec: `Point::optimize(max_iter)` is the external
bounded numeric refinement; its only effect visible to this harness is
that the call happened, recorded as an invocation count. -/
def Point.optimize (p : Point) (_maxIter : Nat) : Point :=
  { p with nOptimCalls := p.nOptimCalls + 1 }

/-- Modelled from the spec: a `Frame` has a monotone identifier and an
ordered list of Features; each Feature holds a reference to a `Point`
or none (`(*it)->point == NULL`). -/
structure Frame where
  id : Nat
  fts : List (Option Point)
deriving DecidableEq, Repr

/-- The candidate collection of `optimizeStructure`: the Points
referenced by the frame's Features, in Feature order, Features without
a Point skipped. -/
def framePoints (f : Frame) : List Point :=
  f.fts.filterMap (fun o => o)

/-- `ptLastOptimComparator` (source lines 182-185) as the corresponding
non-strict order used for sorting consistently with it. -/
def ptKeyLE (a b : Point) : Prop :=
  a.lastStructureOptim ≤ b.lastStructureOptim

instance : DecidableRel ptKeyLE := fun a b =>
  inferInstanceAs (Decidable (a.lastStructureOptim ≤ b.lastStructureOptim))

/-- `FrameHandlerBase::optimizeStructure` (source lines 190-210):
collect the frame's referenced points, set
`max_n_pts = min(max_n_pts, pts.size())`, partially select the
`max_n_pts` points smallest by `last_structure_optim_` (`nth_element`,
whose selection of some set of smallest elements — ties arbitrary — is
modelled by a stable insertion sort), then call `optimize(max_iter)` on
exactly the selected points and stamp each with the frame id.  Returns
the refined points (post-state) and the unrefined remainder. -/
def optimizeStructure (frame : Frame) (maxNPts : Nat) (maxIter : Nat) :
    List Point × List Point :=
  let pts := framePoints frame
  let k := min maxNPts pts.length
  let sorted := List.insertionSort ptKeyLE pts
  ((sorted.take k).map
      (fun p => { p.optimize maxIter with lastStructureOptim := frame.id }),
   sorted.drop k)

/-- C9: after every call to `resetAll()`, from any controller state, the
stage is Paused, the observation count is 0, the quality is
Insufficient, both request flags are cleared, and the Map has been fully
reset (all Points and candidates dropped); the trace shows the Map
reset call. -/
theorem resetAll_spec (s : FrameHandler) :
    resetAll s =
      ({ stage := .paused
         setReset := false
         setStart := false
         numObsLast := 0
         trackingQuality := .insufficient
         map := { points := [], candidates := [], trash := [] } },
       [MapOp.reset]) := rfl

/-- C2: `startFrameProcessing` returns `false` exactly when the stage is
Paused after a pending start request has been applied (equivalently: no
start request is pending and the stage at entry is Paused); on `false`
the state is untouched and no Map call is made, and on `true` the
deferred-deletion queue is drained exactly once. -/
theorem startFrameProcessing_false_iff_paused (s : FrameHandler) :
    ((startFrameProcessingCommon s).1 = false ↔
      s.setStart = false ∧ s.stage = .paused) ∧
    ((startFrameProcessingCommon s).1 = false →
      (startFrameProcessingCommon s).2.1 = s ∧
      (startFrameProcessingCommon s).2.2 = []) ∧
    ((startFrameProcessingCommon s).1 = true →
      (startFrameProcessingCommon s).2.2.count MapOp.emptyTrash = 1) := by
  rcases s with ⟨st, rst, strt, n0, q, m⟩
  cases strt <;> cases st <;>
    simp [startFrameProcessingCommon, resetAll, resetCommon,
      MapState.emptyTrash, List.count_append]

/-- C10: a pending start request is honored from any stage: when
`startRequested` is set, `startFrameProcessing` performs a full reset,
sets the stage to FirstFrame, clears the flag, drains the
deferred-deletion queue and returns `true` — the current map is
discarded even during active tracking. -/
theorem startFrameProcessing_pending_start (s : FrameHandler)
    (h : s.setStart = true) :
    startFrameProcessingCommon s =
      (true,
       { stage := .firstFrame
         setReset := false
         setStart := false
         numObsLast := 0
         trackingQuality := .insufficient
         map := { points := [], candidates := [], trash := [] } },
       [MapOp.reset, MapOp.emptyTrash]) := by
  rcases s with ⟨st, rst, strt, n0, q, m⟩
  cases strt
  · cases h
  · simp [startFrameProcessingCommon, resetAll, resetCommon,
      MapState.reset, MapState.emptyTrash]

/-- Witness for C10 at a concrete state: start requested while actively
tracking in DefaultFrame with a non-empty map. -/
theorem startFrameProcessing_pending_start_witness :
    startFrameProcessingCommon
        { stage := .defaultFrame, setReset := false, setStart := true,
          numObsLast := 9, trackingQuality := .good,
          map := { points := [1, 2], candidates := [3], trash := [4] } } =
      (true,
       { stage := .firstFrame
         setReset := false
         setStart := false
         numObsLast := 0
         trackingQuality := .insufficient
         map := { points := [], candidates := [], trash := [] } },
       [MapOp.reset, MapOp.emptyTrash]) :=
  startFrameProcessing_pending_start _ rfl

/-- C4: a Failure finishing a frame while the stage is FirstFrame is a
hard failure: the controller performs a full reset and then sets
`startRequested`, so the post state is Paused with the start flag set;
the very next `startFrameProcessing` call then returns `true` with the
stage moved to FirstFrame. -/
theorem finish_hard_failure (s : FrameHandler) (u n : Nat)
    (h : s.stage = .firstFrame) :
    finishFrameProcessingCommon u .failure n s =
      (0,
       { stage := .paused
         setReset := false
         setStart := true
         numObsLast := 0
         trackingQuality := .insufficient
         map := { points := [], candidates := [], trash := [] } },
       [MapOp.reset]) ∧
    (startFrameProcessingCommon
        (finishFrameProcessingCommon u .failure n s).2.1).1 = true ∧
    (startFrameProcessingCommon
        (finishFrameProcessingCommon u .failure n s).2.1).2.1.stage =
      .firstFrame := by
  rcases s with ⟨st, rst, strt, n0, q, m⟩
  cases h
  simp [finishFrameProcessingCommon, startFrameProcessingCommon,
    resetAll, resetCommon, MapState.reset, MapState.emptyTrash]

/-- Witness for C4 at a concrete state in stage FirstFrame. -/
theorem finish_hard_failure_witness :
    finishFrameProcessingCommon 3 .failure 5
        { stage := .firstFrame, setReset := false, setStart := false,
          numObsLast := 8, trackingQuality := .good,
          map := { points := [1], candidates := [2], trash := [] } } =
      (0,
       { stage := .paused
         setReset := false
         setStart := true
         numObsLast := 0
         trackingQuality := .insufficient
         map := { points := [], candidates := [], trash := [] } },
       [MapOp.reset]) ∧
    (startFrameProcessingCommon
        (finishFrameProcessingCommon 3 .failure 5
          { stage := .firstFrame, setReset := false, setStart := false,
            numObsLast := 8, trackingQuality := .good,
            map := { points := [1], candidates := [2], trash := [] } }).2.1).1 =
      true ∧
    (startFrameProcessingCommon
        (finishFrameProcessingCommon 3 .failure 5
          { stage := .firstFrame, setReset := false, setStart := false,
            numObsLast := 8, trackingQuality := .good,
            map := { points := [1], candidates := [2], trash := [] } }).2.1).2.1.stage =
      .firstFrame :=
  finish_hard_failure _ 3 5 rfl

/-- C6: with the stage at FirstFrame, finishing with Failure gives
exactly the same post-call result whether or not a reset request is
pending: the hard-failure reset clears `resetRequested`, so the
trailing pending-reset step changes nothing. -/
theorem finish_hard_failure_reset_idempotent (s : FrameHandler)
    (u n : Nat) (h : s.stage = .firstFrame) :
    finishFrameProcessingCommon u .failure n { s with setReset := true } =
      finishFrameProcessingCommon u .failure n { s with setReset := false } := by
  rcases s with ⟨st, rst, strt, n0, q, m⟩
  cases h
  simp [finishFrameProcessingCommon, resetAll, resetCommon, MapState.reset]

/-- Witness for C6 at a concrete state in stage FirstFrame. -/
theorem finish_hard_failure_reset_idempotent_witness :
    finishFrameProcessingCommon 1 .failure 6
        { stage := .firstFrame, setReset := true, setStart := false,
          numObsLast := 4, trackingQuality := .good,
          map := { points := [7], candidates := [], trash := [8] } } =
      finishFrameProcessingCommon 1 .failure 6
        { stage := .firstFrame, setReset := false, setStart := false,
          numObsLast := 4, trackingQuality := .good,
          map := { points := [7], candidates := [], trash := [8] } } :=
  finish_hard_failure_reset_idempotent
    { stage := .firstFrame, setReset := true, setStart := false,
      numObsLast := 4, trackingQuality := .good,
      map := { points := [7], candidates := [], trash := [8] } } 1 6 rfl

/-- C5 counterexample: `lastObservationCount` does not always equal the
observation count passed to `finishFrameProcessing`: a Failure in stage
FirstFrame triggers `resetAll`, which zeroes it after it was recorded
— here the call passes 5 but the post state holds 0. -/
theorem finish_numObsLast_cex :
    (finishFrameProcessingCommon 0 .failure 5
        { stage := .firstFrame, setReset := false, setStart := false,
          numObsLast := 2, trackingQuality := .good,
          map := { points := [], candidates := [], trash := [] } }).2.1.numObsLast
      = 0 ∧
    ¬ (finishFrameProcessingCommon 0 .failure 5
        { stage := .firstFrame, setReset := false, setStart := false,
          numObsLast := 2, trackingQuality := .good,
          map := { points := [], candidates := [], trash := [] } }).2.1.numObsLast
      = 5 := by decide

/-- C5 (amended): after `finishFrameProcessing(u, r, n)` the recorded
`lastObservationCount` equals `n`, except when the call performs a full
reset (a hard failure — `r = Failure` outside DefaultFrame/Relocalizing
— or a pending reset request), in which case it is 0. -/
theorem finish_numObsLast (s : FrameHandler) (u : Nat)
    (r : UpdateResult) (n : Nat) :
    (finishFrameProcessingCommon u r n s).2.1.numObsLast =
      if (r = .failure ∧
            ¬ (s.stage = .defaultFrame ∨ s.stage = .relocalizing)) ∨
          s.setReset = true
      then 0 else n := by
  rcases s with ⟨st, rst, strt, n0, q, m⟩
  cases r <;> cases st <;> cases rst <;>
    simp [finishFrameProcessingCommon, resetAll, resetCommon, MapState.reset]

/-- C3 counterexample: with a reset request pending, a Failure in stage
DefaultFrame does not leave the stage at Relocalizing and does not leave
the Map untouched — the trailing pending-reset step drops the Points
and candidates and parks the stage at Paused. -/
theorem finish_soft_failure_cex :
    ¬ ((finishFrameProcessingCommon 0 .failure 5
          { stage := .defaultFrame, setReset := true, setStart := false,
            numObsLast := 7, trackingQuality := .good,
            map := { points := [1, 2], candidates := [3], trash := [] } }).2.1.stage
        = .relocalizing) ∧
    ¬ ((finishFrameProcessingCommon 0 .failure 5
          { stage := .defaultFrame, setReset := true, setStart := false,
            numObsLast := 7, trackingQuality := .good,
            map := { points := [1, 2], candidates := [3], trash := [] } }).2.1.map
        = { points := [1, 2], candidates := [3], trash := [] }) := by decide

/-- C3 (amended): provided no reset request is pending, a Failure
finishing a frame in stage DefaultFrame or Relocalizing is a soft
failure: the stage becomes Relocalizing, the quality Insufficient, the
observation count is recorded, and the Map is untouched — same map, no
Map call, no reset. -/
theorem finish_soft_failure (s : FrameHandler) (u n : Nat)
    (hr : s.setReset = false)
    (h : s.stage = .defaultFrame ∨ s.stage = .relocalizing) :
    finishFrameProcessingCommon u .failure n s =
      (0,
       { s with
          stage := .relocalizing
          trackingQuality := .insufficient
          numObsLast := n },
       []) := by
  rcases s with ⟨st, rst, strt, n0, q, m⟩
  cases hr
  rcases h with h | h <;> cases h <;>
    simp [finishFrameProcessingCommon, resetAll, resetCommon]

/-- Witness for C3 (amended) at a concrete DefaultFrame state with a
non-empty map. -/
theorem finish_soft_failure_witness :
    finishFrameProcessingCommon 2 .failure 11
        { stage := .defaultFrame, setReset := false, setStart := false,
          numObsLast := 7, trackingQuality := .good,
          map := { points := [1, 2], candidates := [3], trash := [4] } } =
      (0,
       { stage := .relocalizing, setReset := false, setStart := false,
         numObsLast := 11, trackingQuality := .insufficient,
         map := { points := [1, 2], candidates := [3], trash := [4] } },
       []) :=
  finish_soft_failure
    { stage := .defaultFrame, setReset := false, setStart := false,
      numObsLast := 7, trackingQuality := .good,
      map := { points := [1, 2], candidates := [3], trash := [4] } }
    2 11 rfl (Or.inl rfl)

/-- The feature drop exactly as the program computes it on source line
173: narrow the `size_t` minimum to `int`, subtract the observation
count in wrapping `size_t` arithmetic, narrow the result back to
`int`. -/
def wrappedFeatureDrop (cfg : Config) (numObsLast numObservations : Nat) :
    Int :=
  int32ofInt ((int32ofInt ((min numObsLast cfg.maxFts : Nat) : Int) -
    (numObservations : Int)) % (18446744073709551616 : Int))

/-- C7 counterexample: the claim reads the drop as the exact integer
`min(lastObservationCount, maxFeatures) - n`, but the program computes
it in wrapping int/size_t arithmetic.  At `n = 2^32` with
`lastObservationCount = 90` and thresholds min 50 / maxDrop 40, the
claim's Good conditions hold (`n ≥ 50` and exact drop `90 - 2^32 ≤ 40`),
yet the program's `feature_drop` wraps to 90 > 40 and the quality is
Insufficient, not Good. -/
theorem setTrackingQuality_cex :
    (50 : Nat) ≤ 4294967296 ∧
    ((min 90 120 : Nat) : Int) - (4294967296 : Int) ≤ 40 ∧
    (setTrackingQuality
        { qualityMinFts := 50, maxFts := 120, qualityMaxFtsDrop := 40 }
        4294967296
        { initialHandler with numObsLast := 90 }).trackingQuality =
      .insufficient := by decide

/-- C7 (amended): the quality gate yields Good exactly when the
observation count reaches the configured minimum and the feature drop
as the program computes it — `min(lastObservationCount, maxFeatures)`
narrowed to `int`, subtracted in wrapping `size_t` arithmetic and
narrowed back to `int` — does not exceed the configured maximum drop;
it yields Insufficient exactly when the count is below the minimum or
that drop exceeds the maximum — either check alone degrades, and
neither restores Good within the call. -/
theorem setTrackingQuality_spec (cfg : Config) (n : Nat)
    (s : FrameHandler) :
    ((setTrackingQuality cfg n s).trackingQuality = .good ↔
      (cfg.qualityMinFts ≤ n ∧
        wrappedFeatureDrop cfg s.numObsLast n ≤ cfg.qualityMaxFtsDrop)) ∧
    ((setTrackingQuality cfg n s).trackingQuality = .insufficient ↔
      (n < cfg.qualityMinFts ∨
        cfg.qualityMaxFtsDrop < wrappedFeatureDrop cfg s.numObsLast n)) := by
  unfold setTrackingQuality wrappedFeatureDrop
  split_ifs with h1 <;> simp_all

/-- C1 counterexample: the claimed closure misses a move.  With a start
request pending in stage DefaultFrame, `startFrameProcessing` moves the
stage DefaultFrame to FirstFrame between calls — a move the claimed
closure (identity, Paused to FirstFrame, soft-failure moves into
Relocalizing, anything to Paused) rules out. -/
theorem stage_closure_cex :
    ({ stage := .defaultFrame, setReset := false, setStart := true,
       numObsLast := 0, trackingQuality := .good,
       map := { points := [], candidates := [], trash := [] } :
       FrameHandler }).stage = .defaultFrame ∧
    (applyOp .startFrame
        { stage := .defaultFrame, setReset := false, setStart := true,
          numObsLast := 0, trackingQuality := .good,
          map := { points := [], candidates := [], trash := [] } }).stage =
      .firstFrame ∧
    ¬ claimedStageMove .defaultFrame .firstFrame := by decide

/-- C1 (amended): the between-call stage moves of every controller
operation are closed under the claimed moves plus one more: any stage
moves to FirstFrame when a start request is pending at the call.  That
is, each operation either leaves the stage unchanged, moves it to
Paused (reset, directly or through hard-failure recovery), moves it to
Relocalizing by soft failure from FirstFrame, DefaultFrame or
Relocalizing, or moves it to FirstFrame from Paused or on a pending
start request. -/
theorem stage_closure_amended (op : ControllerOp) (s : FrameHandler) :
    amendedStageMove s (applyOp op s).stage := by
  rcases s with ⟨st, rst, strt, n0, q, m⟩
  cases op with
  | startFrame =>
    cases strt <;> cases st <;>
      simp [applyOp, startFrameProcessingCommon, resetAll, resetCommon,
        MapState.emptyTrash, amendedStageMove, claimedStageMove]
  | finishFrame u r n =>
    cases r <;> cases st <;> cases rst <;>
      simp [applyOp, finishFrameProcessingCommon, resetAll, resetCommon,
        amendedStageMove, claimedStageMove]
  | doResetAll =>
    simp [applyOp, resetAll, resetCommon, amendedStageMove,
      claimedStageMove]
  | reqReset =>
    simp [applyOp, requestReset, amendedStageMove, claimedStageMove]
  | reqStart =>
    simp [applyOp, requestStart, amendedStageMove, claimedStageMove]
  | setQuality cfg n =>
    simp [applyOp, setTrackingQuality, amendedStageMove, claimedStageMove]

instance : IsTotal Point ptKeyLE :=
  ⟨fun a b => Nat.le_total a.lastStructureOptim b.lastStructureOptim⟩

instance : IsTrans Point ptKeyLE :=
  ⟨fun _ _ _ => Nat.le_trans⟩

/-- Two sorted permutations of each other with pairwise distinct sort
keys are equal (sorting a list with distinct keys has a unique result,
whatever selection the algorithm makes on ties). -/
theorem sorted_perm_eq_of_nodup_keys :
    ∀ {l₁ l₂ : List Point}, l₁.Perm l₂ → l₁.Sorted ptKeyLE →
      l₂.Sorted ptKeyLE →
      (l₁.map Point.lastStructureOptim).Nodup → l₁ = l₂ := by
  intro l₁
  induction l₁ with
  | nil =>
    intro l₂ h _ _ _
    exact (h.symm.eq_nil).symm
  | cons a t₁ ih =>
    intro l₂ h hs₁ hs₂ hnd
    cases l₂ with
    | nil => exact (List.cons_ne_nil a t₁ h.eq_nil).elim
    | cons b t₂ =>
      have hb : b ∈ a :: t₁ := h.symm.subset (List.mem_cons_self b t₂)
      have hab : a = b := by
        rcases List.mem_cons.mp hb with hba | hbt
        · exact hba.symm
        · have ha : a ∈ b :: t₂ := h.subset (List.mem_cons_self a t₁)
          rcases List.mem_cons.mp ha with hab | hat
          · exact hab
          · have h1 : ptKeyLE a b := (List.sorted_cons.mp hs₁).1 b hbt
            have h2 : ptKeyLE b a := (List.sorted_cons.mp hs₂).1 a hat
            have hk : a.lastStructureOptim = b.lastStructureOptim :=
              Nat.le_antisymm h1 h2
            have hmem : a.lastStructureOptim ∈
                t₁.map Point.lastStructureOptim :=
              List.mem_map.mpr ⟨b, hbt, hk.symm⟩
            exact ((List.nodup_cons.mp hnd).1 hmem).elim
      subst hab
      have htl : t₁ = t₂ :=
        ih h.cons_inv (List.sorted_cons.mp hs₁).2
          (List.sorted_cons.mp hs₂).2 (List.nodup_cons.mp hnd).2
      rw [htl]

/-- The selection contract of `optimizeStructure f m it`: some
duplicate-free list `sel` of points of the frame, of size
`min m |candidates|` (hence at most `m`), is refined — each selected
point exactly once, bumped and stamped with the frame id — and every
selected point's `lastStructureOptim` mark is at most that of every
unselected candidate. -/
def OptimizeStructureOK (f : Frame) (m it : Nat) : Prop :=
  ∃ sel : List Point,
    sel.Nodup ∧
    (∀ p ∈ sel, p ∈ framePoints f) ∧
    sel.length = min m (framePoints f).length ∧
    sel.length ≤ m ∧
    (optimizeStructure f m it).1 =
      sel.map (fun p =>
        { p with nOptimCalls := p.nOptimCalls + 1, lastStructureOptim := f.id }) ∧
    (∀ p ∈ sel, ∀ q ∈ framePoints f, q ∉ sel →
      p.lastStructureOptim ≤ q.lastStructureOptim)

/-- C8: `optimizeStructure(frame, maxPoints, maxIterations)` takes the
frame's referenced points as candidates (Features without a Point
skipped), refines `k = min(maxPoints, |candidates|)` of them — a
duplicate-free selection with the smallest `lastStructureOptim` marks,
each refined once and stamped with the frame id, never more than
`maxPoints` and never a point outside the frame's Features; and on
candidates with marks 5, 1, 9, 3 and `maxPoints = 2`, whatever the
input order, exactly the points marked 1 and 3 are refined. -/
theorem optimizeStructure_spec :
    (∀ (f : Frame) (m it : Nat), (framePoints f).Nodup →
      OptimizeStructureOK f m it) ∧
    (∀ l : List (Option Point),
      l.Perm [some ⟨5, 5, 0⟩, some ⟨1, 1, 0⟩, some ⟨9, 9, 0⟩,
        some ⟨3, 3, 0⟩] →
      (optimizeStructure ⟨100, l⟩ 2 7).1.map Point.id = [1, 3]) := by
  constructor
  · intro f m it hnd
    have hperm : (List.insertionSort ptKeyLE (framePoints f)).Perm
        (framePoints f) := List.perm_insertionSort ptKeyLE (framePoints f)
    have hnds : (List.insertionSort ptKeyLE (framePoints f)).Nodup :=
      hperm.nodup_iff.mpr hnd
    have hsorted : List.Pairwise ptKeyLE
        (List.insertionSort ptKeyLE (framePoints f)) :=
      List.sorted_insertionSort ptKeyLE (framePoints f)
    refine ⟨(List.insertionSort ptKeyLE (framePoints f)).take
      (min m (framePoints f).length), ?_, ?_, ?_, ?_, ?_, ?_⟩
    · exact hnds.sublist (List.take_sublist _ _)
    · intro p hp
      exact hperm.subset ((List.take_sublist _ _).subset hp)
    · have hlen := hperm.length_eq
      simp only [List.length_take, hlen]
      omega
    · have hlen := hperm.length_eq
      simp only [List.length_take, hlen]
      omega
    · rfl
    · intro p hp q hq hqn
      have hq1 : q ∈ List.insertionSort ptKeyLE (framePoints f) :=
        hperm.mem_iff.mpr hq
      rw [← List.take_append_drop (min m (framePoints f).length)
        (List.insertionSort ptKeyLE (framePoints f))] at hq1 hsorted
      rcases List.mem_append.mp hq1 with hq2 | hq2
      · exact (hqn hq2).elim
      · exact (List.pairwise_append.mp hsorted).2.2 p hp q hq2
  · intro l hl
    have hpts : (framePoints ⟨100, l⟩).Perm
        [⟨5, 5, 0⟩, ⟨1, 1, 0⟩, ⟨9, 9, 0⟩, ⟨3, 3, 0⟩] := by
      have := hl.filterMap (fun o => o)
      simpa [framePoints] using this
    have hsrt : List.insertionSort ptKeyLE (framePoints ⟨100, l⟩) =
        [⟨1, 1, 0⟩, ⟨3, 3, 0⟩, ⟨5, 5, 0⟩, ⟨9, 9, 0⟩] := by
      apply sorted_perm_eq_of_nodup_keys
      · exact (List.perm_insertionSort ptKeyLE _).trans
          (hpts.trans (by decide))
      · exact List.sorted_insertionSort ptKeyLE _
      · decide
      · have hmk : ((List.insertionSort ptKeyLE
            (framePoints ⟨100, l⟩)).map Point.lastStructureOptim).Perm
            [5, 1, 9, 3] := by
          have := ((List.perm_insertionSort ptKeyLE
            (framePoints ⟨100, l⟩)).trans hpts).map Point.lastStructureOptim
          simpa using this
        exact hmk.nodup_iff.mpr (by decide)
    have hlen : (framePoints ⟨100, l⟩).length = 4 := by
      simpa using hpts.length_eq
    simp only [optimizeStructure, hsrt, hlen]
    rfl

/-- Witness for C8: the selection contract at a concrete frame (with a
Point-less Feature skipped), and the marks-5-1-9-3 run at an input
order different from the listed one. -/
theorem optimizeStructure_spec_witness :
    OptimizeStructureOK
      ⟨100, [some ⟨3, 3, 0⟩, some ⟨9, 9, 0⟩, none, some ⟨1, 1, 0⟩,
        some ⟨5, 5, 0⟩]⟩ 2 7 ∧
    (optimizeStructure
        ⟨100, [some ⟨3, 3, 0⟩, some ⟨9, 9, 0⟩, some ⟨1, 1, 0⟩,
          some ⟨5, 5, 0⟩]⟩ 2 7).1.map Point.id = [1, 3] :=
  ⟨optimizeStructure_spec.1 _ 2 7 (by decide),
   optimizeStructure_spec.2 _ (by decide)⟩

/-- Witness for C9: `resetAll` at a concrete mid-tracking state. -/
theorem resetAll_spec_witness :
    resetAll
        { stage := .relocalizing, setReset := true, setStart := true,
          numObsLast := 42, trackingQuality := .good,
          map := { points := [1, 2], candidates := [3], trash := [4] } } =
      ({ stage := .paused
         setReset := false
         setStart := false
         numObsLast := 0
         trackingQuality := .insufficient
         map := { points := [], candidates := [], trash := [] } },
       [MapOp.reset]) :=
  resetAll_spec _

/-- Witness for C2: at the constructor state (Paused, no pending
start), `startFrameProcessing` returns `false`. -/
theorem startFrameProcessing_false_iff_paused_witness :
    (startFrameProcessingCommon initialHandler).1 = false :=
  ((startFrameProcessing_false_iff_paused initialHandler).1).mpr ⟨rfl, rfl⟩

/-- Witness for C5 (amended): a Keyframe result without a pending reset
records the passed observation count. -/
theorem finish_numObsLast_witness :
    (finishFrameProcessingCommon 0 .isKeyframe 7
        initialHandler).2.1.numObsLast = 7 := by
  rw [finish_numObsLast]
  decide

/-- Witness for C7: a concrete evaluation of the quality gate on both
sides of the threshold. -/
theorem setTrackingQuality_spec_witness :
    (setTrackingQuality
        { qualityMinFts := 50, maxFts := 120, qualityMaxFtsDrop := 40 } 60
        { initialHandler with numObsLast := 90 }).trackingQuality =
      .good :=
  ((setTrackingQuality_spec _ 60 _).1).mpr (by decide)

/-- Witness for C1 (amended): the amended closure at the concrete
DefaultFrame-with-pending-start call. -/
theorem stage_closure_amended_witness :
    amendedStageMove
      { stage := .defaultFrame, setReset := false, setStart := true,
        numObsLast := 0, trackingQuality := .good,
        map := { points := [], candidates := [], trash := [] } }
      (applyOp .startFrame
        { stage := .defaultFrame, setReset := false, setStart := true,
          numObsLast := 0, trackingQuality := .good,
          map := { points := [], candidates := [], trash := [] } }).stage :=
  stage_closure_amended .startFrame _

end SVO
